import Mathlib

/-!
Shallow embedding of `app.py` (job-application-assistant).

Python strings are modelled as Lean `String`; the Python string methods the
program uses (`strip`, `lower`, `split(".")`) are defined below over the
underlying character lists.  Python falsiness, the JSON values a response can
carry, exceptions of the extraction libraries, and the transport layer of
`requests.post` are modelled explicitly as inductive data, so that every
function of the source becomes a total Lean function of those inputs.
-/

namespace App

/-- Python `str.strip` on the character list: whitespace is removed from the
front and then from the back. -/
def pyStripList (l : List Char) : List Char :=
  (l.dropWhile Char.isWhitespace).rdropWhile Char.isWhitespace

/-- Python `str.strip` on Lean strings. -/
def pyStrip (s : String) : String := ⟨pyStripList s.data⟩

/-- Python `str.lower` (per-character, as the source only compares ASCII
extensions). -/
def pyLower (s : String) : String := ⟨s.data.map Char.toLower⟩

/-- Python `str.split(".")` on the character list: segments between the dots,
with empty segments kept, `[[]]` for the empty string. -/
def splitDot (l : List Char) : List (List Char) :=
  l.foldr (fun c acc =>
    if c = '.' then [] :: acc else (c :: acc.headD []) :: acc.tail) [[]]

/-- `uploaded_file.name.split(".")[-1].lower()` from `extract_cv_text`
(line 52 of `app.py`). -/
def extFromName (name : String) : String :=
  pyLower ⟨(splitDot name.data).getLastD []⟩

/-- The `SUPPORTED_EXTENSIONS` constant (line 15 of `app.py`). -/
def SUPPORTED_EXTENSIONS : List String := ["pdf", "docx", "txt"]

/-- The fixed instructional preamble of `build_prompt`, up to the CV text. -/
def promptPreamble : String :=
  "You are a helpful assistant that writes a professional, tailored cover letter " ++
  "based on the candidate\x27s CV or skills and the job description provided.\n\n" ++
  "Candidate\x27s CV / Skills and Experience:\n"

/-- The fixed separator of `build_prompt` between the CV text and the job
description. -/
def promptMid : String := "\n\n" ++ "Job Description:\n"

/-- The closing instruction of `build_prompt`. -/
def promptClosing : String :=
  "\n\n" ++ "Write a tailored cover letter for this job application."

/-- `build_prompt` (lines 110-119 of `app.py`): plain concatenation of the
preamble, the CV text, the separator, the job description and the closing
instruction. -/
def build_prompt (cv_text : String) (job_desc : String) : String :=
  "You are a helpful assistant that writes a professional, tailored cover letter " ++
  "based on the candidate\x27s CV or skills and the job description provided.\n\n" ++
  "Candidate\x27s CV / Skills and Experience:\n" ++
  cv_text ++
  "\n\n" ++
  "Job Description:\n" ++
  job_desc ++
  "\n\n" ++
  "Write a tailored cover letter for this job application."

/-- `sub` occurs contiguously inside `s`. -/
def containsSub (s : String) (sub : String) : Prop :=
  ∃ a b : String, s = a ++ sub ++ b

/-- Behaviour of one `page.extract_text()` call of PyPDF2: it returns text,
returns `None`, or raises. -/
inductive PageOutcome where
  | text (t : Option String)
  | raises
deriving DecidableEq

/-- Behaviour of a file handed to `PdfReader`: construction raises, or the
reader yields a list of pages, each with its `extract_text()` behaviour. -/
inductive PdfFile where
  | corrupt
  | pages (ps : List PageOutcome)
deriving DecidableEq

/-- Whether a page's `extract_text()` call raises. -/
def pageRaises : PageOutcome → Bool
  | .raises => true
  | .text _ => false

/-- The string a non-raising page contributes: `page.extract_text() or ""`
maps `None` (and `""`) to `""`. -/
def pageText : PageOutcome → String
  | .raises => ""
  | .text t => t.getD ""

/-- `extract_text_from_pdf` (lines 20-28 of `app.py`): joins the per-page
texts with `"\n"` and strips the result; any exception (corrupt file, or a
page raising inside the loop) is caught and yields `""`. -/
def extract_text_from_pdf : PdfFile → String
  | .corrupt => ""
  | .pages ps =>
    if ps.any pageRaises then ""
    else pyStrip (String.intercalate "\n" (ps.map pageText))

/-- Behaviour of `docx2txt.process`: it raises, or returns `None` or a
string. -/
inductive DocxOutcome where
  | raises
  | returns (text : Option String)
deriving DecidableEq

/-- `extract_text_from_docx` (lines 31-37 of `app.py`):
`text.strip() if text else ""`, with any exception caught as `""`. -/
def extract_text_from_docx : DocxOutcome → String
  | .raises => ""
  | .returns none => ""
  | .returns (some t) => if t = "" then "" else pyStrip t

/-- `extract_text_from_txt` (lines 40-45 of `app.py`): the input is the
result of `file.read().decode("utf-8")`, where `none` models a raised
decode (or read) error, caught as `""`; a decoded string is stripped. -/
def extract_text_from_txt : Option String → String
  | none => ""
  | some s => pyStrip s

/-- A Streamlit user-visible message: `st.error` or `st.warning`. -/
inductive UiMsg where
  | error (s : String)
  | warning (s : String)
deriving DecidableEq

/-- An uploaded file: its `name`, together with the behaviour it induces in
each extraction library it may be handed to (the libraries are external, so
their behaviour on the file's bytes is an input of the model). -/
structure UploadedFile where
  name : String
  pdfOutcome : PdfFile
  docxOutcome : DocxOutcome
  txtOutcome : Option String
deriving DecidableEq

/-- `extract_cv_text` (lines 48-72 of `app.py`): returns the extracted text
(`none` for no file or an unsupported extension) together with the emitted
Streamlit messages. -/
def extract_cv_text (uploaded_file : Option UploadedFile) :
    Option String × List UiMsg :=
  match uploaded_file with
  | none => (none, [])
  | some f =>
    let ext := extFromName f.name
    if ext ∉ SUPPORTED_EXTENSIONS then
      (none, [UiMsg.error ("Unsupported file type: " ++ ext ++
        ". Please upload PDF, DOCX, or TXT.")])
    else
      let text :=
        if ext = "pdf" then extract_text_from_pdf f.pdfOutcome
        else if ext = "docx" then extract_text_from_docx f.docxOutcome
        else extract_text_from_txt f.txtOutcome
      if text = "" then
        (some text, [UiMsg.warning ("No text extracted from the uploaded CV file.")])
      else (some text, [])

/-- A JSON value, as `response.json()` can produce. -/
inductive Json where
  | null
  | bool (b : Bool)
  | num (n : Int)
  | str (s : String)
  | arr (elems : List Json)
  | obj (fields : List (String × Json))

/-- Python truthiness of a JSON value. -/
def Json.pyTruthy : Json → Bool
  | .null => false
  | .bool b => b
  | .num n => n != 0
  | .str s => s != ""
  | .arr es => !es.isEmpty
  | .obj fs => !fs.isEmpty

/-- `dict.get` on the fields of a JSON object. -/
def lookupField : List (String × Json) → String → Option Json
  | [], _ => none
  | (k, v) :: rest, key => if k = key then some v else lookupField rest key

/-- The body of an HTTP response: `response.json()` raises `ValueError`
(malformed JSON) or yields a JSON value. -/
inductive ResponseBody where
  | malformed
  | json (j : Json)

/-- Behaviour of the transport layer for one `requests.post` call: it raises
a `requests.exceptions.RequestException` (connection error, timeout, ...) or
delivers a response with a status code and a body. -/
inductive TransportOutcome where
  | raises (errText : String)
  | response (status : Nat) (body : ResponseBody)

/-- Result of running a piece of Python code: a value, or an uncaught
exception propagating out. -/
inductive PyResult (α : Type) where
  | ok (val : α)
  | uncaught (errText : String)
deriving DecidableEq

/-- The text of the `requests.exceptions.HTTPError` raised by
`response.raise_for_status()` on status `status`. -/
def httpErrorText (status : Nat) : String :=
  toString status ++ " Error"

/-- `call_gemini_api` (lines 75-107 of `app.py`).  The first and second
arguments are the source's `prompt` and `api_key` (they go into the request,
whose outcome is the third argument).  Returns the Python result (the
returned `Optional[str]`, or an uncaught exception) together with the
emitted `st.error` messages.  `raise_for_status` raises for 4xx/5xx
statuses; both that `HTTPError` and a transport-level exception are caught
by the `RequestException` handler; a malformed body's `ValueError` is caught
by the second handler; `data.get` on a non-object and `.strip()` on a
non-string truthy field raise an uncaught `AttributeError`. -/
def call_gemini_api (prompt : String) (api_key : String)
    (outcome : TransportOutcome) : PyResult (Option String) × List String :=
  match outcome with
  | .raises errText => (.ok none, ["API request failed: " ++ errText])
  | .response status body =>
    if 400 ≤ status ∧ status < 600 then
      (.ok none, ["API request failed: " ++ httpErrorText status])
    else
      match body with
      | .malformed => (.ok none, ["Failed to decode API response."])
      | .json (.obj fields) =>
        match lookupField fields "generated_text" with
        | none => (.ok none, ["API returned no generated text."])
        | some v =>
          if v.pyTruthy then
            match v with
            | .str s => (.ok (some (pyStrip s)), [])
            | _ => (.uncaught ("AttributeError"), [])
          else (.ok none, ["API returned no generated text."])
      | .json _ => (.uncaught ("AttributeError"), [])

set_option maxRecDepth 4000

/-- Python falsiness of an `Optional[str]`: `None` and `""` are falsy. -/
def pyFalsyStrOpt : Option String → Bool
  | none => true
  | some s => s == ""

/-- An observable step of the button action in `main`. -/
inductive Event where
  | emit (m : UiMsg)
  | extractionCall
  | networkCall (prompt : String)
  | display (text : String)
  | crashed (errText : String)
deriving DecidableEq

/-- The inputs of one click of the Generate button in `main`: the uploaded
file (if any), the two text areas, and the `GEMINI_API_KEY` environment
variable (`none` when absent). -/
structure AppInputs where
  cv_file : Option UploadedFile
  cv_text_input : String
  job_description : String
  api_key : Option String

/-- The body of `if generate_btn:` in `main` (lines 151-186 of `app.py`),
as the trace of observable events it produces, given the transport layer's
behaviour for the one network call.  `os.getenv` yields `api_key`; a falsy
key aborts with an error; with a file uploaded the CV text comes from
`extract_cv_text`, otherwise from the stripped free-text field; a falsy CV
text or a blank job description aborts with a warning; otherwise
`build_prompt` and `call_gemini_api` run, and a truthy cover letter is
displayed. -/
def run_action (inp : AppInputs) (transport : TransportOutcome) : List Event :=
  if pyFalsyStrOpt inp.api_key then
    [Event.emit (UiMsg.error ("Gemini API key not found. Please set the GEMINI_API_KEY environment variable."))]
  else
    let cvStep : Option String × List Event :=
      match inp.cv_file with
      | some _ =>
        let r := extract_cv_text inp.cv_file
        (r.1, Event.extractionCall :: r.2.map Event.emit)
      | none => (some (pyStrip inp.cv_text_input), [])
    let cv_text := cvStep.1
    let evs := cvStep.2
    if pyFalsyStrOpt cv_text then
      evs ++ [Event.emit (UiMsg.warning ("Please provide your CV text or type your skills and experience."))]
    else if pyStrip inp.job_description = "" then
      evs ++ [Event.emit (UiMsg.warning ("Please provide the job description."))]
    else
      let prompt := build_prompt (cv_text.getD "") (pyStrip inp.job_description)
      let r := call_gemini_api prompt (inp.api_key.getD "") transport
      let evs2 := evs ++ [Event.networkCall prompt] ++
        r.2.map (fun m => Event.emit (UiMsg.error m))
      match r.1 with
      | .uncaught errText => evs2 ++ [Event.crashed errText]
      | .ok cover_letter =>
        if pyFalsyStrOpt cover_letter then evs2
        else evs2 ++ [Event.display (cover_letter.getD "")]

theorem build_prompt_eq (cv_text job_desc : String) :
    build_prompt cv_text job_desc =
      promptPreamble ++ cv_text ++ promptMid ++ job_desc ++ promptClosing := by
  apply String.ext
  simp only [build_prompt, promptPreamble, promptMid, promptClosing,
    String.data_append, List.append_assoc]

/-- Claim C1: for every pair of non-empty strings `cv` and `job`,
`build_prompt cv job` is the concatenation of the fixed preamble, the CV
text, the fixed separator, the job-description text and the fixed closing
instruction, in that order, so it contains `cv` and `job` each as a
contiguous substring; being a plain Lean function, it is total and has no
failure mode. -/
theorem build_prompt_contains_cv_and_job (cv job : String)
    (hcv : cv ≠ "") (hjob : job ≠ "") :
    build_prompt cv job =
      promptPreamble ++ cv ++ promptMid ++ job ++ promptClosing ∧
    containsSub (build_prompt cv job) cv ∧
    containsSub (build_prompt cv job) job := by
  refine ⟨build_prompt_eq cv job, ?_, ?_⟩
  · refine ⟨promptPreamble, promptMid ++ job ++ promptClosing, ?_⟩
    rw [build_prompt_eq]
    simp [String.append_assoc]
  · exact ⟨promptPreamble ++ cv ++ promptMid, promptClosing, build_prompt_eq cv job⟩

/-- Claim C2: in each listed case of the transport layer's behaviour — the
transport raises (which includes a timeout, since `requests.exceptions.Timeout`
is a `RequestException`), the response has a non-success (4xx/5xx) status, the
body is malformed JSON, or the JSON object lacks the `generated_text` field —
`call_gemini_api` returns the failure value `None` with an error message
rather than an uncaught exception, and the missing-field message is distinct
from the transport-failure message. -/
theorem call_gemini_api_failure_cases :
    (∀ prompt key errText,
      call_gemini_api prompt key (.raises errText) =
        (.ok none, ["API request failed: " ++ errText])) ∧
    (∀ prompt key status body, 400 ≤ status → status < 600 →
      call_gemini_api prompt key (.response status body) =
        (.ok none, ["API request failed: " ++ httpErrorText status])) ∧
    (∀ prompt key status, status < 400 →
      call_gemini_api prompt key (.response status .malformed) =
        (.ok none, ["Failed to decode API response."])) ∧
    (∀ prompt key status fields, status < 400 →
      lookupField fields "generated_text" = none →
      call_gemini_api prompt key (.response status (.json (.obj fields))) =
        (.ok none, ["API returned no generated text."])) ∧
    (∀ errText,
      ("API returned no generated text." : String) ≠ "API request failed: " ++ errText) := by
  refine ⟨fun _ _ _ => rfl, ?_, ?_, ?_, ?_⟩
  · intro prompt key status body h1 h2
    simp [call_gemini_api, h1, h2]
  · intro prompt key status h
    have hn : ¬(400 ≤ status ∧ status < 600) := by omega
    simp [call_gemini_api, hn]
  · intro prompt key status fields h hlk
    have hn : ¬(400 ≤ status ∧ status < 600) := by omega
    simp [call_gemini_api, hn, hlk]
  · intro errText h
    have h2 : ("API returned no generated text." : String).data.take 20 =
        ("API request failed: " : String).data := by
      rw [h, String.data_append]
      exact List.take_left' rfl
    exact absurd h2 (by decide)

/-- Witness for C2: each failure case of `call_gemini_api_failure_cases` at
a concrete input. -/
theorem call_gemini_api_failure_cases_witness :
    call_gemini_api "p" "k" (.raises ("boom")) =
      (.ok none, ["API request failed: " ++ "boom"]) ∧
    call_gemini_api "p" "k" (.response 500 (.json Json.null)) =
      (.ok none, ["API request failed: " ++ httpErrorText 500]) ∧
    call_gemini_api "p" "k" (.response 200 .malformed) =
      (.ok none, ["Failed to decode API response."]) ∧
    call_gemini_api "p" "k" (.response 200 (.json (.obj []))) =
      (.ok none, ["API returned no generated text."]) ∧
    ("API returned no generated text." : String) ≠ "API request failed: " ++ "x" :=
  ⟨call_gemini_api_failure_cases.1 "p" "k" "boom",
   call_gemini_api_failure_cases.2.1 "p" "k" 500 (.json Json.null)
     (by decide) (by decide),
   call_gemini_api_failure_cases.2.2.1 "p" "k" 200 (by decide),
   call_gemini_api_failure_cases.2.2.2.1 "p" "k" 200 [] (by decide) rfl,
   call_gemini_api_failure_cases.2.2.2.2 "x"⟩

/-- Counterexample to claim C3 as stated: the JSON response
`{"generated_text": " "}` has a truthy (non-empty) whitespace-only string in
the field, so the call succeeds and returns the stripped value `""` — an
empty string returned as success. -/
theorem call_gemini_api_empty_success_counterexample :
    (call_gemini_api "p" "k"
      (.response 200 (.json (.obj [("generated_text", Json.str " ")])))).1 =
      PyResult.ok (some "") := by
  decide

/-- Claim C3 (amended): for every JSON response, the result of
`call_gemini_api` is either the failure marker `None` or the stripped string
value of a truthy (non-empty string) `generated_text` field, never both; the
success string is non-empty except when that field's string strips to the
empty string (a whitespace-only field). -/
theorem call_gemini_api_success_characterization
    (prompt key : String) (status : Nat) (j : Json) (s : String)
    (h : (call_gemini_api prompt key (.response status (.json j))).1 =
      .ok (some s)) :
    ∃ fields t, j = .obj fields ∧
      lookupField fields "generated_text" = some (Json.str t) ∧
      t ≠ "" ∧ s = pyStrip t ∧ (pyStrip t ≠ "" → s ≠ "") := by
  by_cases hs : 400 ≤ status ∧ status < 600
  · simp [call_gemini_api, hs] at h
  · cases j with
    | obj fields =>
      refine ⟨fields, ?_⟩
      cases hlk : lookupField fields "generated_text" with
      | none => simp [call_gemini_api, hs, hlk] at h
      | some v =>
        by_cases hv : v.pyTruthy
        · cases v with
          | str t =>
            simp [call_gemini_api, hs, hlk, hv] at h
            have ht : t ≠ "" := by
              simpa [Json.pyTruthy] using hv
            exact ⟨t, rfl, rfl, ht, h.symm, fun hne => h ▸ hne⟩
          | null => simp [Json.pyTruthy] at hv
          | bool b =>
            simp [call_gemini_api, hs, hlk, hv] at h
          | num n =>
            simp [call_gemini_api, hs, hlk, hv] at h
          | arr es =>
            simp [call_gemini_api, hs, hlk, hv] at h
          | obj fs =>
            simp [call_gemini_api, hs, hlk, hv] at h
        · simp [call_gemini_api, hs, hlk, hv] at h
    | null => simp [call_gemini_api, hs] at h
    | bool b => simp [call_gemini_api, hs] at h
    | num n => simp [call_gemini_api, hs] at h
    | str t => simp [call_gemini_api, hs] at h
    | arr es => simp [call_gemini_api, hs] at h

/-- Witness for C3 (amended) at the concrete response
`{"generated_text": " hi "}`, a success returning `"hi"`. -/
theorem call_gemini_api_success_characterization_witness :
    ∃ fields t, Json.obj [("generated_text", Json.str " hi ")] = Json.obj fields ∧
      lookupField fields "generated_text" = some (Json.str t) ∧
      t ≠ "" ∧ "hi" = pyStrip t ∧ (pyStrip t ≠ "" → ("hi" : String) ≠ "") :=
  call_gemini_api_success_characterization "p" "k" 200
    (Json.obj [("generated_text", Json.str " hi ")]) "hi" (by decide)

/-- Witness for C1 at the concrete non-empty pair `("my cv", "my job")`. -/
theorem build_prompt_contains_cv_and_job_witness :
    build_prompt "my cv" "my job" =
      promptPreamble ++ "my cv" ++ promptMid ++ "my job" ++ promptClosing ∧
    containsSub (build_prompt "my cv" "my job") "my cv" ∧
    containsSub (build_prompt "my cv" "my job") "my job" :=
  build_prompt_contains_cv_and_job "my cv" "my job" (by decide) (by decide)

/-- Helper for reasoning about `String.intercalate`: the tail of a separated
join, `sep ++ a ++ sep ++ b ++ ...` over the remaining elements. -/
def joinTail (sep : String) : List String → String
  | [] => ""
  | a :: as => sep ++ a ++ joinTail sep as

theorem intercalate_go_eq (sep : String) (l : List String) :
    ∀ acc : String, String.intercalate.go acc sep l = acc ++ joinTail sep l := by
  induction l with
  | nil => intro acc; simp [String.intercalate.go, joinTail]
  | cons a as ih =>
    intro acc
    rw [String.intercalate.go, ih, joinTail, ← String.append_assoc,
      ← String.append_assoc]

/-- Spec-side definition, following the claim's words for C4: the per-page
extracted texts concatenated with newline separators, where a page yielding
no text contributes an empty segment. -/
def pdfSpecConcat : List (Option String) → String
  | [] => ""
  | [t] => t.getD ""
  | t :: rest => t.getD "" ++ "\n" ++ pdfSpecConcat rest

theorem pdfSpecConcat_cons (t : Option String) (ts : List (Option String)) :
    pdfSpecConcat (t :: ts) = t.getD "" ++ joinTail "\n" (ts.map (fun u => u.getD "")) := by
  induction ts generalizing t with
  | nil => simp [pdfSpecConcat, joinTail]
  | cons u us ih =>
    rw [show pdfSpecConcat (t :: u :: us) =
        t.getD "" ++ "\n" ++ pdfSpecConcat (u :: us) from rfl,
      ih u, List.map_cons, joinTail]
    simp [String.append_assoc]

theorem intercalate_eq_pdfSpecConcat (ts : List (Option String)) :
    String.intercalate "\n" (ts.map (fun t => t.getD "")) = pdfSpecConcat ts := by
  cases ts with
  | nil => rfl
  | cons t rest =>
    rw [List.map_cons, String.intercalate, intercalate_go_eq, pdfSpecConcat_cons]

/-- Counterexample to claim C4 as stated: for the two-page document whose
first page yields `"a"` and whose second page yields no text, the per-page
texts concatenated with newline separators are `"a\n"`, but extraction
returns the stripped string `"a"`. -/
theorem extract_text_from_pdf_strip_counterexample :
    extract_text_from_pdf (.pages [.text (some "a"), .text none]) ≠
      pdfSpecConcat [some "a", none] := by
  decide

/-- Claim C4 (amended): for every PDF document whose pages' `extract_text`
calls return (possibly no) text without raising, extraction returns the
per-page extracted texts concatenated with newline separators — a page
yielding no text contributing an empty segment — with leading and trailing
whitespace stripped from the result; extraction is a total function, so no
page causes it to abort. -/
theorem extract_text_from_pdf_joins_pages (ts : List (Option String)) :
    extract_text_from_pdf (.pages (ts.map PageOutcome.text)) =
      pyStrip (pdfSpecConcat ts) := by
  have hnone : (ts.map PageOutcome.text).any pageRaises = false := by
    induction ts with
    | nil => rfl
    | cons t rest ih => simp [pageRaises, ih]
  rw [extract_text_from_pdf, hnone, ← intercalate_eq_pdfSpecConcat, List.map_map,
    show (pageText ∘ PageOutcome.text) = (fun t : Option String => t.getD "") from
      funext fun t => rfl]
  simp

/-- Claim C5: for every uploaded file whose dispatch extension is outside
`{pdf, docx, txt}`, `extract_cv_text` returns no text (`none`) and emits the
user-facing configuration error, regardless of the file's contents (the
outcome fields of `f` are arbitrary). -/
theorem extract_cv_text_unsupported_extension (f : UploadedFile)
    (h : extFromName f.name ∉ SUPPORTED_EXTENSIONS) :
    extract_cv_text (some f) =
      (none, [UiMsg.error ("Unsupported file type: " ++ extFromName f.name ++
        ". Please upload PDF, DOCX, or TXT.")]) := by
  simp [extract_cv_text, h]

/-- Witness for C5: a file named `cv.exe` (with arbitrary contents) is
rejected with the configuration error. -/
theorem extract_cv_text_unsupported_extension_witness :
    extract_cv_text (some ⟨"cv.exe", PdfFile.corrupt, DocxOutcome.raises, none⟩) =
      (none, [UiMsg.error ("Unsupported file type: " ++
        extFromName "cv.exe" ++ ". Please upload PDF, DOCX, or TXT.")]) :=
  extract_cv_text_unsupported_extension
    ⟨"cv.exe", PdfFile.corrupt, DocxOutcome.raises, none⟩ (by decide)

/-- Claim C6: every extraction-library exception is caught inside the three
extractors (they are total functions into strings in this embedding, so no
fault propagates): a corrupt PDF, any page raising inside the page loop, a
raising `docx2txt.process`, and a raising read/decode each yield `""`; and
for each of the three dispatch paths the caller `extract_cv_text` then emits
the user-visible warning. -/
theorem extractors_catch_library_failures :
    extract_text_from_pdf .corrupt = "" ∧
    (∀ ps, ps.any pageRaises = true → extract_text_from_pdf (.pages ps) = "") ∧
    extract_text_from_docx .raises = "" ∧
    extract_text_from_txt none = "" ∧
    (∀ f : UploadedFile, extFromName f.name = "pdf" → f.pdfOutcome = .corrupt →
      extract_cv_text (some f) =
        (some "", [UiMsg.warning ("No text extracted from the uploaded CV file.")])) ∧
    (∀ f : UploadedFile, extFromName f.name = "docx" → f.docxOutcome = .raises →
      extract_cv_text (some f) =
        (some "", [UiMsg.warning ("No text extracted from the uploaded CV file.")])) ∧
    (∀ f : UploadedFile, extFromName f.name = "txt" → f.txtOutcome = none →
      extract_cv_text (some f) =
        (some "", [UiMsg.warning ("No text extracted from the uploaded CV file.")])) := by
  refine ⟨rfl, ?_, rfl, rfl, ?_, ?_, ?_⟩
  · intro ps h
    simp [extract_text_from_pdf, h]
  · intro f h1 h2
    simp [extract_cv_text, h1, h2, SUPPORTED_EXTENSIONS, extract_text_from_pdf]
  · intro f h1 h2
    simp [extract_cv_text, h1, h2, SUPPORTED_EXTENSIONS, extract_text_from_docx]
  · intro f h1 h2
    simp [extract_cv_text, h1, h2, SUPPORTED_EXTENSIONS, extract_text_from_txt]

/-- Witness for C6: each part of `extractors_catch_library_failures` at a
concrete input (a one-page PDF that raises, and files named `a.pdf`,
`a.docx`, `a.txt` whose extraction library raises). -/
theorem extractors_catch_library_failures_witness :
    extract_text_from_pdf (.pages [.raises]) = "" ∧
    extract_cv_text (some ⟨"a.pdf", PdfFile.corrupt, DocxOutcome.raises, none⟩) =
      (some "", [UiMsg.warning ("No text extracted from the uploaded CV file.")]) ∧
    extract_cv_text (some ⟨"a.docx", PdfFile.corrupt, DocxOutcome.raises, none⟩) =
      (some "", [UiMsg.warning ("No text extracted from the uploaded CV file.")]) ∧
    extract_cv_text (some ⟨"a.txt", PdfFile.corrupt, DocxOutcome.raises, none⟩) =
      (some "", [UiMsg.warning ("No text extracted from the uploaded CV file.")]) :=
  ⟨extractors_catch_library_failures.2.1 [.raises] (by decide),
   extractors_catch_library_failures.2.2.2.2.1
     ⟨"a.pdf", PdfFile.corrupt, DocxOutcome.raises, none⟩ (by decide) rfl,
   extractors_catch_library_failures.2.2.2.2.2.1
     ⟨"a.docx", PdfFile.corrupt, DocxOutcome.raises, none⟩ (by decide) rfl,
   extractors_catch_library_failures.2.2.2.2.2.2
     ⟨"a.txt", PdfFile.corrupt, DocxOutcome.raises, none⟩ (by decide) rfl⟩

/-- Claim C7: in every invocation of the button action with the API-key
environment variable absent, the action emits exactly the fatal
configuration error and stops: the trace is that single message, so no
extraction and no network call is ever performed, for every behaviour of
the transport layer. -/
theorem run_action_missing_api_key (inp : AppInputs)
    (transport : TransportOutcome) (h : inp.api_key = none) :
    run_action inp transport =
      [Event.emit (UiMsg.error ("Gemini API key not found. Please set the GEMINI_API_KEY environment variable."))] ∧
    Event.extractionCall ∉ run_action inp transport ∧
    (∀ p, Event.networkCall p ∉ run_action inp transport) := by
  have hf : pyFalsyStrOpt inp.api_key = true := by rw [h]; rfl
  have he : run_action inp transport =
      [Event.emit (UiMsg.error ("Gemini API key not found. Please set the GEMINI_API_KEY environment variable."))] := by
    rw [run_action, hf]
    simp
  refine ⟨he, ?_, ?_⟩
  · rw [he]; simp
  · intro p; rw [he]; simp

/-- Witness for C7: no key configured, a file uploaded, transport would
succeed — the action still aborts with only the configuration error. -/
theorem run_action_missing_api_key_witness :
    run_action ⟨some ⟨"cv.txt", PdfFile.corrupt, DocxOutcome.raises, some "hi"⟩,
        "typed", "job", none⟩ (.response 200 .malformed) =
      [Event.emit (UiMsg.error ("Gemini API key not found. Please set the GEMINI_API_KEY environment variable."))] ∧
    Event.extractionCall ∉ run_action ⟨some ⟨"cv.txt", PdfFile.corrupt, DocxOutcome.raises, some "hi"⟩,
        "typed", "job", none⟩ (.response 200 .malformed) ∧
    (∀ p, Event.networkCall p ∉ run_action ⟨some ⟨"cv.txt", PdfFile.corrupt, DocxOutcome.raises, some "hi"⟩,
        "typed", "job", none⟩ (.response 200 .malformed)) :=
  run_action_missing_api_key
    ⟨some ⟨"cv.txt", PdfFile.corrupt, DocxOutcome.raises, some "hi"⟩,
      "typed", "job", none⟩ (.response 200 .malformed) rfl

/-- Claim C8: when a file is uploaded the CV text comes from the file and
the free-text field is never consulted — the trace is unchanged under any
replacement of the free-text field; when the uploaded file's extraction is
falsy (empty or `None`) the action aborts with the CV-missing warning after
the extraction, with no network call, regardless of the free-text field;
and with no file uploaded the stripped free-text field is what reaches
`build_prompt`. -/
theorem run_action_upload_precedence :
    (∀ (inp : AppInputs) (t : TransportOutcome) (v : String) (f : UploadedFile),
      inp.cv_file = some f →
      run_action inp t =
        run_action ⟨inp.cv_file, v, inp.job_description, inp.api_key⟩ t) ∧
    (∀ (inp : AppInputs) (t : TransportOutcome) (f : UploadedFile),
      inp.cv_file = some f → pyFalsyStrOpt inp.api_key = false →
      pyFalsyStrOpt (extract_cv_text (some f)).1 = true →
      run_action inp t =
        Event.extractionCall :: (extract_cv_text (some f)).2.map Event.emit ++
          [Event.emit (UiMsg.warning ("Please provide your CV text or type your skills and experience."))]) ∧
    (∀ (inp : AppInputs) (t : TransportOutcome),
      inp.cv_file = none → pyFalsyStrOpt inp.api_key = false →
      pyStrip inp.cv_text_input ≠ "" → pyStrip inp.job_description ≠ "" →
      Event.networkCall
          (build_prompt (pyStrip inp.cv_text_input) (pyStrip inp.job_description)) ∈
        run_action inp t) := by
  refine ⟨?_, ?_, ?_⟩
  · rintro ⟨cf, ci, jd, ak⟩ t v f h
    simp only at h
    subst h
    rfl
  · rintro ⟨cf, ci, jd, ak⟩ t f h1 h2 h3
    simp only at h1 h2
    subst h1
    rw [run_action, h2]
    simp [h3]
  · rintro ⟨cf, ci, jd, ak⟩ t h1 h2 h3 h4
    simp only at h1 h2 h3 h4
    subst h1
    rw [run_action, h2]
    simp only [Bool.false_eq_true, if_false]
    have hcv : pyFalsyStrOpt (some (pyStrip ci)) = false := by
      simp [pyFalsyStrOpt, h3]
    simp only [hcv, Bool.false_eq_true, if_false, if_neg h4, Option.getD_some]
    rcases hres : (call_gemini_api (build_prompt (pyStrip ci) (pyStrip jd))
        (ak.getD "") t).1 with res | e
    · rcases res with _ | s
      · simp [pyFalsyStrOpt]
      · by_cases hs : s = ""
        · simp [pyFalsyStrOpt, hs]
        · simp [pyFalsyStrOpt, hs]
    · simp

/-- Witness for C8: the three parts at concrete inputs — replacing the
free-text field leaves the trace unchanged when a file is uploaded; a file
whose extraction is empty aborts with the CV-missing warning; without a
file the stripped free-text reaches the prompt. -/
theorem run_action_upload_precedence_witness :
    run_action ⟨some ⟨"cv.txt", PdfFile.corrupt, DocxOutcome.raises, some "hello"⟩,
        "typed", "jd", some "k"⟩ (.raises ("x")) =
      run_action ⟨some ⟨"cv.txt", PdfFile.corrupt, DocxOutcome.raises, some "hello"⟩,
        "other", "jd", some "k"⟩ (.raises ("x")) ∧
    run_action ⟨some ⟨"cv.txt", PdfFile.corrupt, DocxOutcome.raises, none⟩,
        "typed cv", "jd", some "k"⟩ (.raises ("x")) =
      Event.extractionCall ::
        (extract_cv_text (some ⟨"cv.txt", PdfFile.corrupt, DocxOutcome.raises, none⟩)).2.map Event.emit ++
        [Event.emit (UiMsg.warning ("Please provide your CV text or type your skills and experience."))] ∧
    Event.networkCall (build_prompt (pyStrip " typed ") (pyStrip "jd")) ∈
      run_action ⟨none, " typed ", "jd", some "k"⟩ (.raises ("x")) :=
  ⟨run_action_upload_precedence.1
    ⟨some ⟨"cv.txt", PdfFile.corrupt, DocxOutcome.raises, some "hello"⟩,
      "typed", "jd", some "k"⟩ (.raises ("x")) "other"
    ⟨"cv.txt", PdfFile.corrupt, DocxOutcome.raises, some "hello"⟩ rfl,
   run_action_upload_precedence.2.1
    ⟨some ⟨"cv.txt", PdfFile.corrupt, DocxOutcome.raises, none⟩,
      "typed cv", "jd", some "k"⟩ (.raises ("x"))
    ⟨"cv.txt", PdfFile.corrupt, DocxOutcome.raises, none⟩ rfl rfl (by decide),
   run_action_upload_precedence.2.2
    ⟨none, " typed ", "jd", some "k"⟩ (.raises ("x")) rfl rfl
    (by decide) (by decide)⟩

/-- No leading or trailing whitespace: the first and the last character of
the string, when present, are not whitespace. -/
def noOuterWhitespace (s : String) : Prop :=
  (∀ c, s.data.head? = some c → c.isWhitespace = false) ∧
  (∀ c, s.data.getLast? = some c → c.isWhitespace = false)

theorem pyStripList_head_not_ws (l : List Char) (c : Char)
    (hc : (pyStripList l).head? = some c) : c.isWhitespace = false := by
  unfold pyStripList at hc
  obtain ⟨z, hz⟩ :=
    List.rdropWhile_prefix Char.isWhitespace (l.dropWhile Char.isWhitespace)
  cases hr : (l.dropWhile Char.isWhitespace).rdropWhile Char.isWhitespace with
  | nil => rw [hr] at hc; simp at hc
  | cons a rest =>
    rw [hr] at hc
    simp only [List.head?_cons, Option.some.injEq] at hc
    subst hc
    rw [hr] at hz
    have hne : l.dropWhile Char.isWhitespace ≠ [] := by
      rw [← hz]; simp
    have hhead := List.head_dropWhile_not Char.isWhitespace l hne
    have h1 : (l.dropWhile Char.isWhitespace).head? = some a := by
      rw [← hz]; rfl
    have h2 := List.head?_eq_head hne
    rw [h1] at h2
    injection h2 with h2'
    rw [h2']
    exact hhead

theorem pyStripList_last_not_ws (l : List Char) (c : Char)
    (hc : (pyStripList l).getLast? = some c) : c.isWhitespace = false := by
  unfold pyStripList at hc
  have hne : (l.dropWhile Char.isWhitespace).rdropWhile Char.isWhitespace ≠ [] := by
    intro h
    rw [h] at hc
    simp at hc
  have hlast :=
    List.rdropWhile_last_not Char.isWhitespace (l.dropWhile Char.isWhitespace) hne
  have h2 := List.getLast?_eq_getLast _ hne
  rw [hc] at h2
  injection h2 with h2'
  rw [← h2'] at hlast
  simpa using hlast

theorem noOuterWhitespace_pyStrip (s : String) : noOuterWhitespace (pyStrip s) :=
  ⟨fun c hc => pyStripList_head_not_ws s.data c hc,
   fun c hc => pyStripList_last_not_ws s.data c hc⟩

theorem noOuterWhitespace_empty : noOuterWhitespace "" :=
  ⟨fun _ hc => by simp at hc, fun _ hc => by simp at hc⟩

/-- Claim C9: every string the three extraction helpers can return has no
leading or trailing whitespace (each applies `strip` before returning, and
the exception paths return the empty string); consequently, for plain-text
content that begins or ends with whitespace (so that stripping changes it),
the extracted text is not byte-for-byte equal to the file content. -/
theorem extractors_strip_whitespace :
    (∀ f, noOuterWhitespace (extract_text_from_pdf f)) ∧
    (∀ d, noOuterWhitespace (extract_text_from_docx d)) ∧
    (∀ o, noOuterWhitespace (extract_text_from_txt o)) ∧
    (∀ content, pyStrip content ≠ content →
      extract_text_from_txt (some content) ≠ content) := by
  refine ⟨?_, ?_, ?_, fun content h hEq => h hEq⟩
  · intro f
    cases f with
    | corrupt => exact noOuterWhitespace_empty
    | pages ps =>
      rw [extract_text_from_pdf]
      by_cases h : ps.any pageRaises = true
      · rw [if_pos h]; exact noOuterWhitespace_empty
      · rw [if_neg h]; exact noOuterWhitespace_pyStrip _
  · intro d
    cases d with
    | raises => exact noOuterWhitespace_empty
    | returns t =>
      cases t with
      | none => exact noOuterWhitespace_empty
      | some s =>
        rw [extract_text_from_docx]
        by_cases h : s = ""
        · rw [if_pos h]; exact noOuterWhitespace_empty
        · rw [if_neg h]; exact noOuterWhitespace_pyStrip _
  · intro o
    cases o with
    | none => exact noOuterWhitespace_empty
    | some s => exact noOuterWhitespace_pyStrip _

/-- Witness for C9: the plain-text content `" x "` extracts to `"x"`, which
has no outer whitespace and differs from the original content. -/
theorem extractors_strip_whitespace_witness :
    noOuterWhitespace (extract_text_from_txt (some " x ")) ∧
    extract_text_from_txt (some " x ") ≠ " x " :=
  ⟨extractors_strip_whitespace.2.2.1 (some " x "),
   extractors_strip_whitespace.2.2.2 " x " (by decide)⟩

/-- Spec-side definition, following the claim's words for C10: the substring
of `l` strictly after the last dot, the whole of `l` when it contains no
dot. -/
def afterLastDot : List Char → List Char
  | [] => []
  | c :: cs =>
    if '.' ∈ cs then afterLastDot cs else if c = '.' then cs else c :: cs

theorem splitDot_cons (c : Char) (cs : List Char) :
    splitDot (c :: cs) =
      if c = '.' then [] :: splitDot cs
      else (c :: (splitDot cs).headD []) :: (splitDot cs).tail := by
  rw [splitDot, List.foldr_cons, ← splitDot]

theorem splitDot_ne_nil (l : List Char) : splitDot l ≠ [] := by
  cases l with
  | nil => simp [splitDot]
  | cons c cs =>
    rw [splitDot_cons]
    by_cases h : c = '.'
    · rw [if_pos h]; simp
    · rw [if_neg h]; simp

theorem splitDot_eq_single (cs : List Char) (h : '.' ∉ cs) :
    splitDot cs = [cs] := by
  induction cs with
  | nil => rfl
  | cons c cs ih =>
    have hc : c ≠ '.' := by
      intro he
      exact h (he ▸ List.mem_cons_self c cs)
    have hcs : '.' ∉ cs := fun hm => h (List.mem_cons_of_mem c hm)
    rw [splitDot_cons, if_neg hc, ih hcs]
    rfl

theorem splitDot_length_ge_two (cs : List Char) (h : '.' ∈ cs) :
    2 ≤ (splitDot cs).length := by
  induction cs with
  | nil => cases h
  | cons c cs ih =>
    rw [splitDot_cons]
    by_cases hc : c = '.'
    · rw [if_pos hc]
      have h1 : 0 < (splitDot cs).length :=
        List.length_pos.mpr (splitDot_ne_nil cs)
      rw [List.length_cons]
      omega
    · rw [if_neg hc]
      have hcs : '.' ∈ cs := by
        cases List.mem_cons.mp h with
        | inl he => exact absurd he.symm hc
        | inr hm => exact hm
      have h2 := ih hcs
      have h1 : 0 < (splitDot cs).length :=
        List.length_pos.mpr (splitDot_ne_nil cs)
      rw [List.length_cons, List.length_tail]
      omega

theorem splitDot_getLastD (l : List Char) :
    (splitDot l).getLastD [] = afterLastDot l := by
  induction l with
  | nil => rfl
  | cons c cs ih =>
    rw [splitDot_cons, afterLastDot]
    by_cases hdot : '.' ∈ cs
    · rw [if_pos hdot]
      by_cases hc : c = '.'
      · rw [if_pos hc, List.getLastD_cons, ← ih]
      · rw [if_neg hc]
        have h2 := splitDot_length_ge_two cs hdot
        cases hr : splitDot cs with
        | nil => exact absurd hr (splitDot_ne_nil cs)
        | cons r0 rtail =>
          cases rtail with
          | nil => rw [hr] at h2; simp at h2
          | cons r1 rt =>
            rw [hr] at ih
            simp only [List.headD_cons, List.tail_cons, List.getLastD_cons] at *
            exact ih
    · rw [if_neg hdot, splitDot_eq_single cs hdot]
      by_cases hc : c = '.'
      · rw [if_pos hc, if_pos hc]
        rfl
      · rw [if_neg hc, if_neg hc]
        rfl

theorem afterLastDot_append_dot (l s : List Char) (h : '.' ∉ s) :
    afterLastDot (l ++ '.' :: s) = s := by
  induction l with
  | nil =>
    rw [List.nil_append, afterLastDot, if_neg h, if_pos rfl]
  | cons c l ih =>
    rw [List.cons_append, afterLastDot]
    have hmem : '.' ∈ l ++ '.' :: s :=
      List.mem_append.mpr (Or.inr (List.mem_cons_self _ _))
    rw [if_pos hmem, ih]

/-- Claim C10: the dispatch extension computed on an uploaded name is the
lowercased substring after the last dot of the name (the whole name,
lowercased, when it has no dot), so matching is case-insensitive — any name
ending in ".PDF" dispatches to "pdf" — and a dotless name is its own
extension: the name "txt" is a supported plain-text extension, and a file
named exactly "txt" is dispatched to the plain-text extractor. -/
theorem extFromName_lowercase_after_last_dot :
    (∀ name : String, extFromName name = pyLower ⟨afterLastDot name.data⟩) ∧
    (∀ stem : String, extFromName (stem ++ ".PDF") = "pdf") ∧
    extFromName "txt" = "txt" ∧
    "txt" ∈ SUPPORTED_EXTENSIONS ∧
    (∀ f : UploadedFile, f.name = "txt" → f.txtOutcome = some "plain text" →
      extract_cv_text (some f) = (some ("plain text"), [])) := by
  have hchar : ∀ name : String,
      extFromName name = pyLower ⟨afterLastDot name.data⟩ := by
    intro name
    rw [extFromName, splitDot_getLastD]
  refine ⟨hchar, ?_, by decide, by decide, ?_⟩
  · intro stem
    rw [hchar, String.data_append,
      show (".PDF" : String).data = '.' :: ['P', 'D', 'F'] from rfl,
      afterLastDot_append_dot stem.data ['P', 'D', 'F'] (by decide)]
    decide
  · intro f h1 h2
    have hext : extFromName f.name = "txt" := by rw [h1]; decide
    have hps : extract_text_from_txt (some "plain text") = "plain text" := by
      decide
    simp [extract_cv_text, hext, h2, SUPPORTED_EXTENSIONS, hps]

/-- Witness for C10: the characterization at the multi-dot, mixed-case name
"archive.tar.GZ", the case-insensitive dispatch at "my cv.PDF", and the
dotless file named exactly "txt" dispatched as plain text. -/
theorem extFromName_lowercase_after_last_dot_witness :
    extFromName "archive.tar.GZ" =
      pyLower ⟨afterLastDot ("archive.tar.GZ" : String).data⟩ ∧
    extFromName ("my cv" ++ ".PDF") = "pdf" ∧
    extract_cv_text
        (some ⟨"txt", PdfFile.corrupt, DocxOutcome.raises, some "plain text"⟩) =
      (some ("plain text"), []) :=
  ⟨extFromName_lowercase_after_last_dot.1 "archive.tar.GZ",
   extFromName_lowercase_after_last_dot.2.1 "my cv",
   extFromName_lowercase_after_last_dot.2.2.2.2
     ⟨"txt", PdfFile.corrupt, DocxOutcome.raises, some "plain text"⟩ rfl rfl⟩

end App
